import Mathlib

/-!
Verification of the rerust Result library (src/src/index.ts).

The library exports one type and four one-line functions:

  type Result<T, E = string> =
    | { success: true; value: T }
    | { success: false; value: E };
  const ok   = <T>(value: T): Result<T> => ({ success: true, value });
  const err  = <E extends string>(value: E): Result<never, E> => ({ success: false, value });
  const isOk  = <T, E>(result: Result<T, E>): ... => result.success;
  const isErr = <T, E>(result: Result<T, E>): ... => !result.success;

The shallow embedding below keeps the TypeScript record shape: a Result is a
record with a boolean discriminant field `success` and a single payload slot
`value` whose type depends on the discriminant (T when success is true, E when
it is false), exactly as in the union above where the two variants reuse the
same field names.
-/

namespace Rerust

/-- Embedding of `Result<T, E>`: a record with the boolean discriminant field
`success` and one payload slot `value`, typed `T` under the success variant and
`E` under the failure variant (`cond success T E`). This is the discriminated
union from src/src/index.ts with its two record variants merged along their
shared field names. -/
structure Result (T E : Type) where
  success : Bool
  value : cond success T E

/-- Embedding of `ok` from src/src/index.ts: builds `{ success: true, value }`.
The source declares the return type `Result<T>` (E defaulting to string), but
the object literal never mentions E and is assignable to `Result<T, E>` for any
E in TypeScript's structural typing; the embedding makes that assignability
explicit with an implicit E. -/
def ok {T E : Type} (value : T) : Result T E :=
  { success := true, value := value }

/-- Embedding of `err` from src/src/index.ts: builds `{ success: false, value }`.
The source declares the return type `Result<never, E>` with `E extends string`;
`never` is the bottom type, so the value is assignable to `Result<T, E>` for any
T, which the embedding expresses with an implicit T. The `E extends string`
bound is a type-level constraint with no runtime content; claims about string
payloads instantiate E with String. -/
def err {T E : Type} (value : E) : Result T E :=
  { success := false, value := value }

/-- Embedding of `isOk` from src/src/index.ts: the body is `result.success`. -/
def isOk {T E : Type} (result : Result T E) : Bool :=
  result.success

/-- Embedding of `isErr` from src/src/index.ts: the body is `!result.success`. -/
def isErr {T E : Type} (result : Result T E) : Bool :=
  !result.success

/-- Reading the payload slot of a Result under the success branch: with the
discriminant known to be true, the slot `value : cond success T E` is a `T`.
This is what TypeScript's narrowing gives a caller after `isOk(result)`. -/
def Result.getOk {T E : Type} : (r : Result T E) → r.success = true → T
  | { success := true, value := v }, _ => v
  | { success := false, value := _ }, h => nomatch h

/-- Reading the payload slot of a Result under the failure branch: with the
discriminant known to be false, the slot `value : cond success T E` is an `E`.
This is what TypeScript's narrowing gives a caller after `isErr(result)`. -/
def Result.getErr {T E : Type} : (r : Result T E) → r.success = false → E
  | { success := false, value := v }, _ => v
  | { success := true, value := _ }, h => nomatch h

/-- Call-level embedding of `ok`: a TypeScript call receives the world (the
mutable heap and environment) and either returns a value together with the
updated world or throws. The body of `ok` is a single object-literal
expression: it reads and writes no mutable state and contains no throwing
construct, so the call returns `Except.ok` with the world unchanged. -/
def okCall {T E σ : Type} (value : T) (world : σ) : Except String (Result T E × σ) :=
  Except.ok (ok value, world)

/-- Call-level embedding of `err`; like `okCall`, the one-expression body
neither touches the world nor throws. -/
def errCall {T E σ : Type} (value : E) (world : σ) : Except String (Result T E × σ) :=
  Except.ok (err value, world)

/-- Call-level embedding of `isOk`: the body `result.success` reads a field of
a well-typed immutable operand, so the call returns `Except.ok` with the world
unchanged. -/
def isOkCall {T E σ : Type} (result : Result T E) (world : σ) : Except String (Bool × σ) :=
  Except.ok (isOk result, world)

/-- Call-level embedding of `isErr`; the body `!result.success` likewise reads
a field of a well-typed immutable operand and cannot throw. -/
def isErrCall {T E σ : Type} (result : Result T E) (world : σ) : Except String (Bool × σ) :=
  Except.ok (isErr result, world)

/-- The user record from the lookup scenario in src/src/index.test.ts. -/
structure User where
  id : Nat
  name : String

/-- Embedding of `findUser` from src/src/index.test.ts:
`(id) => id === 1 ? ok({id: 1, name: "John"}) : err("User not found")`
(the source writes the conditional as an if/return pair). -/
def findUser (id : Nat) : Result User String :=
  if id = 1 then ok ⟨1, "John"⟩ else err "User not found"

/-- The sequence of Scenario D: `[ok(1), err("x"), ok(3)]` at
`Result<number, string>`. -/
def scenarioD : List (Result Nat String) :=
  [ok 1, err "x", ok 3]

end Rerust

namespace Rerust

/-- Every element surviving the `isOk` filter of Scenario D has discriminant
true, so its payload may be read under the success branch. -/
theorem scenarioD_filter_success :
    ∀ r ∈ scenarioD.filter (fun r => isOk r), r.success = true := by
  decide

/-- C1: for every Result instance r, `isOk r` and `isErr r` are opposite
booleans — they never agree, and `isErr r` is the logical negation of
`isOk r`. -/
theorem isOk_ne_isErr (T E : Type) (r : Result T E) :
    isOk r ≠ isErr r ∧ isErr r = !isOk r := by
  obtain ⟨s, v⟩ := r
  cases s <;> simp [isOk, isErr]

/-- C2: for every value v, the success constructor produces an instance on
which `isOk` is true and `isErr` is false. -/
theorem isOk_ok (T E : Type) (v : T) :
    isOk (ok v : Result T E) = true ∧ isErr (ok v : Result T E) = false := by
  exact ⟨rfl, rfl⟩

/-- C3: for every string value v, the failure constructor produces an instance
on which `isErr` is true and `isOk` is false (the source bounds the error
payload type to string subtypes, so E is instantiated with String). -/
theorem isErr_err (T : Type) (v : String) :
    isErr (err v : Result T String) = true ∧ isOk (err v : Result T String) = false := by
  exact ⟨rfl, rfl⟩

/-- C4: round-trip through the constructors preserves the payload — reading
the `value` field of `ok v` under the success branch yields v, and reading the
`value` field of `err e` under the failure branch yields e (both through the
narrowing readers and as the raw field). -/
theorem ok_err_roundtrip (T E : Type) (v : T) (e : E) :
    (ok v : Result T E).getOk rfl = v ∧ (err e : Result T E).getErr rfl = e ∧
    (ok v : Result T E).value = v ∧ (err e : Result T E).value = e := by
  exact ⟨rfl, rfl, rfl, rfl⟩

/-- C5: all four operations are total and pure with no failure mode: at every
input of the declared type (and in every world), the call-level embedding
returns `Except.ok` of the pure result — never `Except.error` — and leaves the
world unchanged. -/
theorem ops_total_pure (T E σ : Type) (v : T) (e : E) (r : Result T E) (w : σ) :
    okCall v w = Except.ok ((ok v : Result T E), w) ∧
    errCall e w = Except.ok ((err e : Result T E), w) ∧
    isOkCall r w = Except.ok (isOk r, w) ∧
    isErrCall r w = Except.ok (isErr r, w) := by
  exact ⟨rfl, rfl, rfl, rfl⟩

/-- C6: the predicates are deterministic — two successive evaluations of
`isOk` (or `isErr`) on the same immutable instance, with the world of the
second call being whatever the first call left behind, return the same
boolean, and the first call does not move the world. -/
theorem isOk_isErr_deterministic (T E σ : Type) (r : Result T E) (w : σ)
    (b1 b2 b3 b4 : Bool) (w1 w2 w3 w4 : σ)
    (h1 : isOkCall r w = Except.ok (b1, w1))
    (h2 : isOkCall r w1 = Except.ok (b2, w2))
    (h3 : isErrCall r w = Except.ok (b3, w3))
    (h4 : isErrCall r w1 = Except.ok (b4, w4)) :
    b1 = b2 ∧ b3 = b4 ∧ w1 = w := by
  simp only [isOkCall, isErrCall, Except.ok.injEq, Prod.mk.injEq] at h1 h2 h3 h4
  exact ⟨h1.1.symm.trans h2.1, h3.1.symm.trans h4.1, h1.2.symm⟩

/-- Witness for C6 at the concrete instance `ok 0 : Result Nat String` and the
one-point world, applying the theorem with every hypothesis discharged by
`rfl`. -/
theorem isOk_isErr_deterministic_witness :
    true = true ∧ false = false ∧ () = () :=
  isOk_isErr_deterministic Nat String Unit (ok 0) () true true false false
    () () () () rfl rfl rfl rfl

/-- C7: the lookup function of the test suite returns, for id 1, a success
Result whose payload's name field is "John", and for id 999 a failure Result
whose payload is "User not found". -/
theorem findUser_spec :
    isOk (findUser 1) = true ∧ ((findUser 1).getOk (by decide)).name = "John" ∧
    isErr (findUser 999) = true ∧ (findUser 999).getErr (by decide) = "User not found" := by
  exact ⟨rfl, rfl, rfl, rfl⟩

/-- C8: filtering `[ok 1, err "x", ok 3]` by `isOk` and projecting each
surviving element's payload under the success branch yields exactly `[1, 3]`:
failures are removed and the successes keep their order. -/
theorem scenarioD_filter_project :
    (scenarioD.filter (fun r => isOk r)).pmap
      (fun r h => Result.getOk r h) scenarioD_filter_success = [1, 3] := by
  rfl

/-- C9: the ranges of the two constructors are disjoint — at every common type
instantiation, `ok v` and `err e` have different discriminant fields and are
therefore never equal, whatever the payloads. -/
theorem ok_ne_err (T E : Type) (v : T) (e : E) :
    (ok v : Result T E).success ≠ (err e : Result T E).success ∧
    (ok v : Result T E) ≠ err e := by
  refine ⟨by simp [ok, err], fun h => ?_⟩
  have hs := congrArg Result.success h
  simp [ok, err] at hs

/-- C10: the predicates depend only on the discriminant field, never on the
payload — two instances with equal discriminants get equal answers from `isOk`
and from `isErr`, even when their payloads differ. -/
theorem isOk_isErr_noninterference (T E : Type) (r1 r2 : Result T E)
    (h : r1.success = r2.success) :
    isOk r1 = isOk r2 ∧ isErr r1 = isErr r2 := by
  simp [isOk, isErr, h]

/-- Witness for C10 at two success instances with different payloads. -/
theorem isOk_isErr_noninterference_witness :
    isOk (ok 0 : Result Nat String) = isOk (ok 1 : Result Nat String) ∧
    isErr (ok 0 : Result Nat String) = isErr (ok 1 : Result Nat String) :=
  isOk_isErr_noninterference Nat String (ok 0) (ok 1) rfl

end Rerust
